import Mathlib

/-!
Verification of the analytics/documents/auth backend (app/crud.py,
app/routes/documents.py, app/routes/auth.py) against its specification.

The database tables are shallowly embedded as lists of records; timestamps
are abstract natural numbers; SQL grouped counting queries are embedded as
counting over those lists; Python float arithmetic on the ratios is embedded
as exact rational arithmetic with bankers rounding for `round(x, 2)`;
operations that can raise a Python exception return `Except`.
-/

namespace Mark2

/-! ## Documents (app/models.py `Document`, app/routes/documents.py) -/

/-- A row of the `documents` table (app/models.py).  `verification_date` is
an abstract timestamp. -/
structure Document where
  id : Nat
  title : String
  verified : Bool
  verification_date : Option Nat
  verified_by : Option String
deriving Repr, DecidableEq

/-- The request body of `PUT /documents/{id}` (app/schemas.py
`DocumentUpdate`); `verified_by` is optional, defaulting to null. -/
structure DocumentUpdate where
  verified : Bool
  verified_by : Option String
deriving Repr, DecidableEq

/-- The mutation performed by `update_document` on the fetched row
(app/routes/documents.py lines 21-27): set `verified` to the requested
value; if the request verifies and the stored `verification_date` is unset
(Python falsy, i.e. None), stamp the current time and the provided
verifier; if the request un-verifies, null out both fields. -/
def applyVerification (data : DocumentUpdate) (now : Nat) (doc : Document) : Document :=
  let doc1 := { doc with verified := data.verified }
  if data.verified && doc1.verification_date.isNone then
    { doc1 with verification_date := some now, verified_by := data.verified_by }
  else if !data.verified then
    { doc1 with verification_date := none, verified_by := none }
  else
    doc1

/-- Replace the first row satisfying `p` by its image under `f` (the ORM
mutates the single row fetched by primary key). -/
def replaceFirst (p : Document → Bool) (f : Document → Document) : List Document → List Document
  | [] => []
  | d :: ds => if p d then f d :: ds else d :: replaceFirst p f ds

/-- `update_document` (app/routes/documents.py): fetch the document by id;
404 if absent; otherwise apply the verification update and commit.  The
error value is the HTTP status code carried by the raised exception. -/
def update_document (doc_id : Nat) (data : DocumentUpdate) (now : Nat)
    (db : List Document) : Except Nat (List Document) :=
  match db.find? (fun d => d.id == doc_id) with
  | none => Except.error 404
  | some _ => Except.ok (replaceFirst (fun d => d.id == doc_id) (applyVerification data now) db)

/-- The database state after a call to `update_document`: a raised
HTTPException aborts before `db.commit()`, leaving the state unchanged. -/
def runUpdate (doc_id : Nat) (data : DocumentUpdate) (now : Nat)
    (db : List Document) : List Document :=
  match update_document doc_id data now db with
  | Except.error _ => db
  | Except.ok db2 => db2

/-! ## Auth (app/routes/auth.py) -/

/-- app/routes/auth.py line 17. -/
def ACCESS_TOKEN_EXPIRE_MINUTES : Nat := 30

/-- The claims embedded in an issued JWT: subject identity and expiry
timestamp (seconds). -/
structure TokenClaims where
  sub : String
  exp : Nat
deriving Repr, DecidableEq

/-- `create_access_token` (app/routes/auth.py lines 32-36): expiry is the
current time plus the requested delta, defaulting to 15 minutes when no
delta is given. -/
def create_access_token (sub : String) (now : Nat) (expires_delta : Option Nat) : TokenClaims :=
  { sub := sub, exp := now + expires_delta.getD (15 * 60) }

/-- The token issued by `login` (`POST /auth/token`, app/routes/auth.py
lines 38-44) on successful authentication: `create_access_token` is called
with only the subject data, no `expires_delta`. -/
def login_access_token (username : String) (now : Nat) : TokenClaims :=
  create_access_token username now none

/-! ## Rounding (Python `round(x, 2)` on the exact ratio, bankers rounding) -/

/-- Python `round` to the nearest integer with ties going to the even
integer, on the exact rational value. -/
def roundHalfEven (q : Rat) : Int :=
  let f := q.floor
  if q - f < 1 / 2 then f
  else if q - f > 1 / 2 then f + 1
  else if f % 2 = 0 then f else f + 1

/-- Python `round(q, 2)`. -/
def round2 (q : Rat) : Rat :=
  (roundHalfEven (q * 100) : Rat) / 100

/-! ## Truckers (app/models.py `Trucker`, crud.get_trucker_distribution) -/

/-- A row of the `truckers` table (app/models.py); `company_name` is
nullable. -/
structure Trucker where
  id : Nat
  name : String
  company_name : Option String
  province_of_issue : String
  is_archived : Bool
deriving Repr, DecidableEq

/-- `func.coalesce(Trucker.company_name, 'Independent')`
(app/crud.py line 33). -/
def coalesceCompany (t : Trucker) : String :=
  t.company_name.getD "Independent"

/-- The keys of a list not already seen, in first-occurrence order. -/
def dedupFirstAux (seen : List String) : List String → List String
  | [] => []
  | k :: ks => if seen.contains k then dedupFirstAux seen ks
               else k :: dedupFirstAux (k :: seen) ks

/-- The distinct keys of a list, in first-occurrence order. -/
def dedupFirst (ks : List String) : List String :=
  dedupFirstAux [] ks

/-- A grouped counting query (`GROUP BY` + `count`): one `(key, count)` row
per distinct key, counting its occurrences. -/
def groupCount (ks : List String) : List (String × Nat) :=
  (dedupFirst ks).map (fun k => (k, ks.count k))

/-- The dict comprehension
`{k: round((v / total) * 100, 2) for k, v in by_company}`
(app/crud.py line 38): each iteration divides by `total`, which raises
ZeroDivisionError when `total` is zero; zero iterations perform zero
divisions. -/
def percentagesChecked (bc : List (String × Nat)) (total : Nat) :
    Except String (List (String × Rat)) :=
  match bc with
  | [] => Except.ok []
  | (k, v) :: rest =>
    if total = 0 then Except.error "ZeroDivisionError"
    else
      match percentagesChecked rest total with
      | Except.error e => Except.error e
      | Except.ok tl => Except.ok ((k, round2 ((v : Rat) / (total : Rat) * 100)) :: tl)

/-- `max(by_company, key=lambda x: x[1])[0]` (app/crud.py line 39): the
first key of maximal count; Python `max` raises ValueError on an empty
sequence, giving `none` here. -/
def maxByCount : List (String × Nat) → Option String
  | [] => none
  | x :: xs => some ((xs.foldl (fun best y => if y.2 > best.2 then y else best) x).1)

/-- `percentages.get(k, d)`. -/
def lookupD (m : List (String × Rat)) (k : String) (d : Rat) : Rat :=
  (((m.find? (fun kv => kv.1 == k)).map (fun kv => kv.2)).getD d)

/-- The response of `GET /analytics/truckers/distribution`. -/
structure TruckerDistribution where
  by_province : List (String × Nat)
  by_company : List (String × Nat)
  percentages : List (String × Rat)
  most_common : String
  trend : String
deriving Repr, DecidableEq

/-- `get_trucker_distribution` (app/crud.py lines 31-53): group all
truckers by province and by coalesced company name, compute company
percentages over the total trucker count, pick the most common company,
and classify the trend: "Increasing independence" when the Independent
percentage exceeds 40, else "Company dominance" when any company
percentage exceeds 60, else "Balanced". -/
def get_trucker_distribution (db : List Trucker) : Except String TruckerDistribution :=
  let by_province := groupCount (db.map (fun t => t.province_of_issue))
  let by_company := groupCount (db.map coalesceCompany)
  let total := db.length
  match percentagesChecked by_company total with
  | Except.error e => Except.error e
  | Except.ok percentages =>
    match maxByCount by_company with
    | none => Except.error "ValueError: max() arg is an empty sequence"
    | some most_common =>
      let trend :=
        if lookupD percentages "Independent" 0 > 40 then "Increasing independence"
        else if percentages.any (fun kv => kv.2 > 60) then "Company dominance"
        else "Balanced"
      Except.ok { by_province := by_province, by_company := by_company,
                  percentages := percentages, most_common := most_common, trend := trend }

/-- The trend classification exactly as the specification words it
(spec §4.1 and §8): "Increasing independence" if the Independent
percentage exceeds 40 — checked first, so it wins even if some other
bucket exceeds 60 — else "Company dominance" if any company percentage
exceeds 60, else "Balanced". -/
def claimTrend (pcts : List (String × Rat)) : String :=
  if lookupD pcts "Independent" 0 > 40 then "Increasing independence"
  else if pcts.any (fun kv => kv.2 > 60) then "Company dominance"
  else "Balanced"

/-! ## Employees (app/models.py `Employee`, crud.get_employee_growth) -/

/-- A row of the `employees` table (app/models.py).
`registration_month` is the value of
`func.strftime('%Y-%m', Employee.registration_date)` for the row: the
registration timestamp itself only enters `get_employee_growth` through
this "YYYY-MM" key, so the embedding stores the key directly. -/
structure Employee where
  id : Nat
  name : String
  registration_month : String
  is_archived : Bool
deriving Repr, DecidableEq

/-- The grouped query of app/crud.py lines 9-13: month-key → count over
non-archived employees. -/
def monthlyCounts (db : List Employee) : List (String × Nat) :=
  groupCount ((db.filter (fun e => e.is_archived == false)).map (fun e => e.registration_month))

/-- `LinearRegression().fit(X, y)` followed by `predict([[n]])` for
`X = [[0], ..., [n-1]]` (app/crud.py lines 18-22): ordinary least squares
on centred data (sklearn solves the centred system by least squares, so a
zero-variance X — a single sample — yields slope 0 and intercept ȳ), then
evaluation at index `n`.  `fit` raises ValueError on 0 samples. -/
def olsPredictNext (ys : List Rat) : Except String Rat :=
  match ys with
  | [] => Except.error "ValueError: 0 samples"
  | _ :: _ =>
    let n : Rat := (ys.length : Rat)
    let xbar : Rat := (n - 1) / 2
    let ybar : Rat := (ys.foldl (fun a b => a + b) 0) / n
    let idx : List Rat := (List.range ys.length).map (fun i => (i : Rat))
    let sxx : Rat := ((idx.map (fun x => (x - xbar) ^ 2)).foldl (fun a b => a + b) 0)
    let sxy : Rat := (((idx.zip ys).map (fun p => (p.1 - xbar) * (p.2 - ybar))).foldl
      (fun a b => a + b) 0)
    let slope : Rat := if sxx = 0 then 0 else sxy / sxx
    let intercept : Rat := ybar - slope * xbar
    Except.ok (intercept + slope * n)

/-- The response of `GET /analytics/employees/growth`. -/
structure EmployeeGrowth where
  monthly_registrations : List (String × Nat)
  average_growth : Rat
  projection : Int
deriving Repr, DecidableEq

/-- `get_employee_growth` (app/crud.py lines 8-28): monthly registration
counts of active employees, their average, and a rounded one-step-ahead
linear-regression projection. -/
def get_employee_growth (db : List Employee) : Except String EmployeeGrowth :=
  let monthly := monthlyCounts db
  let avg : Rat :=
    if monthly = [] then 0
    else ((monthly.map (fun kv => (kv.2 : Rat))).foldl (fun a b => a + b) 0) / (monthly.length : Rat)
  match olsPredictNext (monthly.map (fun kv => (kv.2 : Rat))) with
  | Except.error e => Except.error e
  | Except.ok p =>
    Except.ok { monthly_registrations := monthly, average_growth := avg,
                projection := roundHalfEven p }

/-! ## Business impact (crud.get_business_impact) -/

/-- The response of `GET /analytics/business/impact`. -/
structure BusinessImpact where
  employee_churn_rate : Rat
  trucker_churn_rate : Rat
  document_compliance_rate : Rat
deriving Repr, DecidableEq

/-- `get_business_impact` (app/crud.py lines 56-73): churn rate of
employees and truckers (percentage archived) and document compliance rate
(percentage verified), each 0 when the corresponding total count is 0. -/
def get_business_impact (emps : List Employee) (trks : List Trucker)
    (docs : List Document) : BusinessImpact :=
  let total_employees := emps.length
  let archived_employees := (emps.filter (fun e => e.is_archived == true)).length
  let employee_churn_rate : Rat :=
    if total_employees ≠ 0 then
      round2 ((archived_employees : Rat) / (total_employees : Rat) * 100)
    else 0
  let total_truckers := trks.length
  let archived_truckers := (trks.filter (fun t => t.is_archived == true)).length
  let trucker_churn_rate : Rat :=
    if total_truckers ≠ 0 then
      round2 ((archived_truckers : Rat) / (total_truckers : Rat) * 100)
    else 0
  let total_docs := docs.length
  let verified_docs := (docs.filter (fun d => d.verified == true)).length
  let compliance_rate : Rat :=
    if total_docs ≠ 0 then
      round2 ((verified_docs : Rat) / (total_docs : Rat) * 100)
    else 0
  { employee_churn_rate := employee_churn_rate,
    trucker_churn_rate := trucker_churn_rate,
    document_compliance_rate := compliance_rate }

end Mark2

namespace Mark2

/-! ## Helper lemmas about document updates -/

theorem applyVerification_id (data : DocumentUpdate) (now : Nat) (doc : Document) :
    (applyVerification data now doc).id = doc.id := by
  unfold applyVerification
  dsimp only
  split
  · rfl
  · split <;> rfl

theorem find?_replaceFirst (doc_id : Nat) (f : Document → Document)
    (hf : ∀ d, (f d).id = d.id) (db : List Document) :
    (replaceFirst (fun d => d.id == doc_id) f db).find? (fun d => d.id == doc_id)
      = (db.find? (fun d => d.id == doc_id)).map f := by
  induction db with
  | nil => rfl
  | cons d ds ih =>
    by_cases h : d.id = doc_id
    · simp [replaceFirst, List.find?, h, hf]
    · have hb : (d.id == doc_id) = false := by simp [h]
      simp [replaceFirst, List.find?, hb, ih]

theorem update_document_found (doc_id : Nat) (data : DocumentUpdate) (now : Nat)
    (db : List Document) (doc : Document)
    (hfind : db.find? (fun d => d.id == doc_id) = some doc) :
    update_document doc_id data now db =
      Except.ok (replaceFirst (fun d => d.id == doc_id) (applyVerification data now) db) ∧
    (replaceFirst (fun d => d.id == doc_id) (applyVerification data now) db).find?
        (fun d => d.id == doc_id) = some (applyVerification data now doc) := by
  constructor
  · unfold update_document
    rw [hfind]
  · rw [find?_replaceFirst _ _ (fun d => applyVerification_id data now d), hfind]
    rfl

theorem applyVerification_true_unset (vb : Option String) (now : Nat) (doc : Document)
    (h : doc.verification_date = none) :
    applyVerification ⟨true, vb⟩ now doc =
      { doc with verified := true, verification_date := some now, verified_by := vb } := by
  unfold applyVerification
  simp [h]

theorem applyVerification_true_set (vb : Option String) (now : Nat) (doc : Document) (d : Nat)
    (h : doc.verification_date = some d) :
    applyVerification ⟨true, vb⟩ now doc = { doc with verified := true } := by
  unfold applyVerification
  simp [h]

theorem applyVerification_false (vb : Option String) (now : Nat) (doc : Document) :
    applyVerification ⟨false, vb⟩ now doc =
      { doc with verified := false, verification_date := none, verified_by := none } := by
  unfold applyVerification
  simp

/-! ## Claims about the document mutation component -/

/-- C1: for every existing document whose `verification_date` is unset,
`setVerification(documentId, true, verifiedBy)` completes successfully,
setting the document's `verification_date` to the current time,
`verified_by` to the provided value, and `verified` to true. -/
theorem C1_verify_unset_sets_fields (doc_id : Nat) (vb : Option String) (now : Nat)
    (db : List Document) (doc : Document)
    (hfind : db.find? (fun d => d.id == doc_id) = some doc)
    (hunset : doc.verification_date = none) :
    ∃ db2, update_document doc_id ⟨true, vb⟩ now db = Except.ok db2 ∧
      db2.find? (fun d => d.id == doc_id) =
        some { doc with verified := true, verification_date := some now, verified_by := vb } := by
  obtain ⟨hrun, hfind2⟩ := update_document_found doc_id ⟨true, vb⟩ now db doc hfind
  exact ⟨_, hrun, by rw [hfind2, applyVerification_true_unset vb now doc hunset]⟩

theorem C1_witness :
    ([⟨1, "t", false, none, none⟩] : List Document).find? (fun d => d.id == 1) =
        some ⟨1, "t", false, none, none⟩ ∧
    ∃ db2, update_document 1 ⟨true, some "alice"⟩ 5 [⟨1, "t", false, none, none⟩] =
        Except.ok db2 ∧
      db2.find? (fun d => d.id == 1) = some ⟨1, "t", true, some 5, some "alice"⟩ :=
  ⟨rfl, C1_verify_unset_sets_fields 1 (some "alice") 5 [⟨1, "t", false, none, none⟩]
    ⟨1, "t", false, none, none⟩ rfl rfl⟩

/-- C2 counterexample: verifying a document with a null `verified_by`
(the request field is optional and defaults to null) succeeds and leaves
`verified = true` with `verified_by` unset, so the resulting document
violates "verification_date and verified_by are set iff verified is
true". -/
theorem C2_counterexample :
    update_document 1 ⟨true, none⟩ 5 [⟨1, "t", false, none, none⟩] =
      Except.ok [⟨1, "t", true, some 5, none⟩] ∧
    ¬ (((⟨1, "t", true, some 5, none⟩ : Document).verification_date.isSome ∧
        (⟨1, "t", true, some 5, none⟩ : Document).verified_by.isSome) ↔
          (⟨1, "t", true, some 5, none⟩ : Document).verified = true) := by
  constructor
  · rfl
  · decide

/-- C2 amended: after every successful `setVerification` call the updated
document satisfies `verification_date` is set iff `verified` is true, a
set `verified_by` implies `verified`, and clearing `verified` nulls out
both fields; but `verified_by` may be null while `verified` is true. -/
theorem C2_amended_invariant (doc_id : Nat) (data : DocumentUpdate) (now : Nat)
    (db : List Document) (doc : Document)
    (hfind : db.find? (fun d => d.id == doc_id) = some doc) :
    ∃ db2 d2, update_document doc_id data now db = Except.ok db2 ∧
      db2.find? (fun d => d.id == doc_id) = some d2 ∧
      (d2.verification_date.isSome ↔ d2.verified = true) ∧
      (d2.verified_by.isSome → d2.verified = true) ∧
      (data.verified = false → d2.verification_date = none ∧ d2.verified_by = none) := by
  obtain ⟨hrun, hfind2⟩ := update_document_found doc_id data now db doc hfind
  obtain ⟨dv, dvb⟩ := data
  refine ⟨_, _, hrun, hfind2, ?_⟩
  cases dv with
  | false =>
    rw [applyVerification_false]
    simp
  | true =>
    cases hd : doc.verification_date with
    | none =>
      rw [applyVerification_true_unset dvb now doc hd]
      simp
    | some d =>
      rw [applyVerification_true_set dvb now doc d hd]
      simp [hd]

theorem C2_amended_witness :
    ∃ db2 d2, update_document 1 ⟨false, some "x"⟩ 9
        [⟨1, "t", true, some 2, some "alice"⟩] = Except.ok db2 ∧
      db2.find? (fun d => d.id == 1) = some d2 ∧
      (d2.verification_date.isSome ↔ d2.verified = true) ∧
      (d2.verified_by.isSome → d2.verified = true) ∧
      ((⟨false, some "x"⟩ : DocumentUpdate).verified = false →
        d2.verification_date = none ∧ d2.verified_by = none) :=
  C2_amended_invariant 1 ⟨false, some "x"⟩ 9 _ _ rfl

/-- C9: for every existing document whose `verification_date` is already
set, `setVerification(id, true, v)` leaves `verification_date` and
`verified_by` unchanged for any `v`; in particular
`setVerification(id, true, "alice")` followed by
`setVerification(id, true, "bob")` leaves `verified_by = "alice"`. -/
theorem C9_reverify_unchanged :
    (∀ (doc_id : Nat) (v : Option String) (now : Nat) (db : List Document)
        (doc : Document) (d : Nat),
      db.find? (fun x => x.id == doc_id) = some doc →
      doc.verification_date = some d →
      ∃ db2, update_document doc_id ⟨true, v⟩ now db = Except.ok db2 ∧
        db2.find? (fun x => x.id == doc_id) = some { doc with verified := true }) ∧
    (∀ (doc_id : Nat) (db : List Document) (doc : Document) (t1 t2 : Nat),
      db.find? (fun x => x.id == doc_id) = some doc →
      doc.verification_date = none →
      ∃ db1 db2, update_document doc_id ⟨true, some "alice"⟩ t1 db = Except.ok db1 ∧
        update_document doc_id ⟨true, some "bob"⟩ t2 db1 = Except.ok db2 ∧
        db2.find? (fun x => x.id == doc_id) =
          some { doc with verified := true, verification_date := some t1,
                          verified_by := some "alice" }) := by
  constructor
  · intro doc_id v now db doc d hfind hset
    obtain ⟨hrun, hfind2⟩ := update_document_found doc_id ⟨true, v⟩ now db doc hfind
    exact ⟨_, hrun, by rw [hfind2, applyVerification_true_set v now doc d hset]⟩
  · intro doc_id db doc t1 t2 hfind hunset
    obtain ⟨db1, hrun1, hfind1⟩ :=
      C1_verify_unset_sets_fields doc_id (some "alice") t1 db doc hfind hunset
    obtain ⟨hrun2, hfind2⟩ :=
      update_document_found doc_id ⟨true, some "bob"⟩ t2 db1 _ hfind1
    refine ⟨db1, _, hrun1, hrun2, ?_⟩
    rw [hfind2, applyVerification_true_set (some "bob") t2 _ t1 rfl]

theorem C9_witness :
    ∃ db1 db2,
      update_document 1 ⟨true, some "alice"⟩ 3 [⟨1, "t", false, none, none⟩] =
        Except.ok db1 ∧
      update_document 1 ⟨true, some "bob"⟩ 7 db1 = Except.ok db2 ∧
      db2.find? (fun x => x.id == 1) = some ⟨1, "t", true, some 3, some "alice"⟩ :=
  C9_reverify_unchanged.2 1 [⟨1, "t", false, none, none⟩] ⟨1, "t", false, none, none⟩
    3 7 rfl rfl

/-- C10: for every document id not present in the database,
`setVerification` fails with a 404 NotFound error and the database state is
left unchanged by the failed call. -/
theorem C10_not_found_unchanged (doc_id : Nat) (data : DocumentUpdate) (now : Nat)
    (db : List Document)
    (habsent : db.find? (fun d => d.id == doc_id) = none) :
    update_document doc_id data now db = Except.error 404 ∧
    runUpdate doc_id data now db = db := by
  have hrun : update_document doc_id data now db = Except.error 404 := by
    unfold update_document
    rw [habsent]
  exact ⟨hrun, by unfold runUpdate; rw [hrun]⟩

theorem C10_witness :
    update_document 999999 ⟨true, none⟩ 5 [⟨1, "t", false, none, none⟩] =
      Except.error 404 ∧
    runUpdate 999999 ⟨true, none⟩ 5 [⟨1, "t", false, none, none⟩] =
      [⟨1, "t", false, none, none⟩] :=
  C10_not_found_unchanged 999999 ⟨true, none⟩ 5 _ rfl

/-! ## Claims about the auth component -/

/-- C3: the claim says every token issued by `POST /auth/token` expires 30
minutes after issuance; the code's `login` calls `create_access_token`
without an `expires_delta`, so the 15-minute default applies and
`ACCESS_TOKEN_EXPIRE_MINUTES = 30` is never used: the issued expiry is
issuance + 15 minutes and differs from issuance + 30 minutes. -/
theorem C3_login_token_expires_in_15_minutes (u : String) (t : Nat) :
    (login_access_token u t).exp = t + 15 * 60 ∧
    (login_access_token u t).exp ≠ t + ACCESS_TOKEN_EXPIRE_MINUTES * 60 := by
  constructor
  · rfl
  · unfold login_access_token create_access_token ACCESS_TOKEN_EXPIRE_MINUTES
    simp

/-! ## Claims about the trucker distribution -/

theorem percentagesChecked_of_total_ne_zero (bc : List (String × Nat)) (total : Nat)
    (h : total ≠ 0) :
    percentagesChecked bc total =
      Except.ok (bc.map (fun kv => (kv.1, round2 ((kv.2 : Rat) / (total : Rat) * 100)))) := by
  induction bc with
  | nil => rfl
  | cons kv rest ih =>
    obtain ⟨k, v⟩ := kv
    simp [percentagesChecked, h, ih]

theorem groupCount_ne_nil (ks : List String) (h : ks ≠ []) : groupCount ks ≠ [] := by
  cases ks with
  | nil => exact absurd rfl h
  | cons k ks => simp [groupCount, dedupFirst, dedupFirstAux]

theorem trucker_distribution_nil :
    get_trucker_distribution [] =
      Except.error "ValueError: max() arg is an empty sequence" := rfl

theorem maxByCount_isSome (l : List (String × Nat)) (h : l ≠ []) :
    ∃ s, maxByCount l = some s := by
  cases l with
  | nil => exact absurd rfl h
  | cons x xs => exact ⟨_, rfl⟩

/-- C5: with zero truckers the percentage computation performs no division
at all — the company-bucket list is empty, so the comprehension runs zero
iterations — and in particular the operation never surfaces a
ZeroDivisionError to the caller. -/
theorem C5_no_division_by_zero (db : List Trucker) (h : db.length = 0) :
    percentagesChecked (groupCount (db.map coalesceCompany)) db.length = Except.ok [] ∧
    get_trucker_distribution db ≠ Except.error "ZeroDivisionError" := by
  have hnil : db = [] := List.length_eq_zero.mp h
  subst hnil
  refine ⟨rfl, ?_⟩
  rw [trucker_distribution_nil]
  simp

theorem C5_witness :
    percentagesChecked (groupCount (([] : List Trucker).map coalesceCompany))
      ([] : List Trucker).length = Except.ok [] ∧
    get_trucker_distribution [] ≠ Except.error "ZeroDivisionError" :=
  C5_no_division_by_zero [] rfl

/-- C6: with zero truckers `get_trucker_distribution` still fails:
`most_common` is `max` of the empty company-bucket list, which raises
ValueError, even though the percentage division itself was vacuous. -/
theorem C6_empty_truckers_fails (db : List Trucker) (h : db.length = 0) :
    get_trucker_distribution db =
      Except.error "ValueError: max() arg is an empty sequence" := by
  have hnil : db = [] := List.length_eq_zero.mp h
  subst hnil
  exact trucker_distribution_nil

theorem C6_witness :
    get_trucker_distribution [] =
      Except.error "ValueError: max() arg is an empty sequence" :=
  C6_empty_truckers_fails [] rfl

/-- C7: for every nonempty trucker population the operation succeeds and
its trend label is exactly the spec's classification over the computed
percentages: "Increasing independence" whenever the Independent percentage
exceeds 40 (checked first, taking priority over the dominance check), else
"Company dominance" if any company percentage exceeds 60, else
"Balanced". -/
theorem C7_trend_classification (db : List Trucker) (h : db ≠ []) :
    ∃ r, get_trucker_distribution db = Except.ok r ∧
      r.trend = claimTrend r.percentages := by
  have htot : db.length ≠ 0 := fun hl => h (List.length_eq_zero.mp hl)
  have hmap : db.map coalesceCompany ≠ [] := by
    simpa using h
  obtain ⟨s, hs⟩ := maxByCount_isSome _ (groupCount_ne_nil _ hmap)
  refine ⟨{ by_province := groupCount (db.map (fun t => t.province_of_issue)),
            by_company := groupCount (db.map coalesceCompany),
            percentages := (groupCount (db.map coalesceCompany)).map
              (fun kv => (kv.1, round2 ((kv.2 : Rat) / (db.length : Rat) * 100))),
            most_common := s,
            trend := claimTrend ((groupCount (db.map coalesceCompany)).map
              (fun kv => (kv.1, round2 ((kv.2 : Rat) / (db.length : Rat) * 100)))) },
          ?_, rfl⟩
  unfold get_trucker_distribution
  dsimp only
  rw [percentagesChecked_of_total_ne_zero _ _ htot, hs]
  rfl

theorem C7_witness :
    ∃ r, get_trucker_distribution
        [⟨1, "a", none, "ON", false⟩, ⟨2, "b", none, "ON", false⟩,
         ⟨3, "c", none, "QC", false⟩, ⟨4, "d", some "A", "ON", false⟩,
         ⟨5, "e", some "A", "QC", false⟩] = Except.ok r ∧
      r.trend = claimTrend r.percentages :=
  C7_trend_classification _ (by simp)

/-! ## Claims about employee growth -/

theorem rat_floor_natCast (c : Nat) : ((c : Rat)).floor = (c : Int) := by
  rw [Rat.floor_def']
  simp

theorem roundHalfEven_natCast (c : Nat) : roundHalfEven (c : Rat) = (c : Int) := by
  unfold roundHalfEven
  norm_num [rat_floor_natCast]

theorem olsPredictNext_singleton (c : Rat) : olsPredictNext [c] = Except.ok c := by
  have h1 : List.range 1 = [0] := rfl
  unfold olsPredictNext
  simp only [h1, List.length_cons, List.length_nil, List.map_cons, List.map_nil,
    List.zip_cons_cons, List.zip_nil_right, List.foldl_cons, List.foldl_nil]
  norm_num

theorem get_employee_growth_single (db : List Employee) (m : String) (c : Nat)
    (hm : monthlyCounts db = [(m, c)]) :
    get_employee_growth db =
      Except.ok { monthly_registrations := [(m, c)], average_growth := (c : Rat),
                  projection := (c : Int) } := by
  unfold get_employee_growth
  dsimp only
  rw [hm]
  simp only [List.map_cons, List.map_nil, olsPredictNext_singleton]
  norm_num [roundHalfEven_natCast]

/-- C4: whenever the non-archived employees span fewer than 2 distinct
registration months, `get_employee_growth` either fails (the regression
fit raises on an empty sample) or returns a flat projection (with exactly
one month the fitted line is constant, so the projection equals that
month's count). -/
theorem C4_few_months_fails_or_flat (db : List Employee)
    (h : (monthlyCounts db).length < 2) :
    (∃ e, get_employee_growth db = Except.error e) ∨
    (∃ r, get_employee_growth db = Except.ok r ∧
      ∀ kv ∈ r.monthly_registrations, r.projection = (kv.2 : Int)) := by
  cases hm : monthlyCounts db with
  | nil =>
    left
    refine ⟨"ValueError: 0 samples", ?_⟩
    unfold get_employee_growth
    dsimp only
    rw [hm]
    rfl
  | cons kv tl =>
    cases tl with
    | cons kv2 tl2 =>
      rw [hm] at h
      simp at h
      omega
    | nil =>
      right
      obtain ⟨m, c⟩ := kv
      refine ⟨_, get_employee_growth_single db m c hm, ?_⟩
      intro kv2 hkv2
      simp only [List.mem_singleton] at hkv2
      subst hkv2
      rfl

theorem C4_witness :
    (∃ e, get_employee_growth [⟨1, "e", "2024-01", false⟩] = Except.error e) ∨
    (∃ r, get_employee_growth [⟨1, "e", "2024-01", false⟩] = Except.ok r ∧
      ∀ kv ∈ r.monthly_registrations, r.projection = (kv.2 : Int)) :=
  C4_few_months_fails_or_flat [⟨1, "e", "2024-01", false⟩] (by decide)

/-! ## Claims about business impact -/

/-- C8: `get_business_impact` returns, for employees and truckers, churn
rate `round(100 * archived / total, 2)` and for documents compliance rate
`round(100 * verified / total, 2)`, and each rate is 0 — with no error
possible, the computation being total — whenever the corresponding total
count is 0. -/
theorem C8_rates_and_zero_guards (emps : List Employee) (trks : List Trucker)
    (docs : List Document) :
    (get_business_impact emps trks docs).employee_churn_rate =
      (if emps.length = 0 then 0
       else round2 (100 * ((emps.filter (fun e => e.is_archived == true)).length : Rat)
         / (emps.length : Rat))) ∧
    (get_business_impact emps trks docs).trucker_churn_rate =
      (if trks.length = 0 then 0
       else round2 (100 * ((trks.filter (fun t => t.is_archived == true)).length : Rat)
         / (trks.length : Rat))) ∧
    (get_business_impact emps trks docs).document_compliance_rate =
      (if docs.length = 0 then 0
       else round2 (100 * ((docs.filter (fun d => d.verified == true)).length : Rat)
         / (docs.length : Rat))) := by
  refine ⟨?_, ?_, ?_⟩ <;>
    · unfold get_business_impact
      dsimp only
      split
      · next hne =>
        congr 1
        ring
      · next hne =>
        rw [not_not] at hne
        simp [hne]

end Mark2
